import Mathlib

/-!
Shallow embedding of the grabeklis-api backend (Python/FastAPI) and proofs
about its article-store gateway, session bootstrap, and summarization
orchestrator.  Each definition mirrors one function of the source tree:

* `Lsm.get_articles_by_date`   — src/utils/lsm.py, `get_articles_by_date`
* `Lsm.upsert_summary`         — src/utils/lsm.py, `upsert_summary`
* `Lsm.get_daily_summary_util` — src/utils/lsm.py, `get_daily_summary`
* `Adk.get_or_create_adk_session` — src/services/adk_service.py
* `Router.*`                   — src/routers/lsm_router.py and agent_router.py

Times are modelled in microseconds (Python datetime resolution).  A naive
`datetime` value is a calendar-day index plus time-of-day components, so
that `replace(hour=0, minute=0, second=0)` — which keeps the microsecond
field, exactly as in CPython — can be expressed field by field.  MongoDB
collections are modelled as lists of documents in insertion order:
`find` is `List.filter`, `find_one` is `List.find?`, `update_one` with
`upsert=True` replaces the first match or appends.
-/

namespace Grabeklis

/-- Microseconds in one hour. -/
def microsPerHour : Int := 3600 * 1000000

/-- Microseconds in one day. -/
def microsPerDay : Int := 24 * microsPerHour

/-- A naive Python `datetime`: a calendar-day index (days since an arbitrary
epoch) together with time-of-day components.  Calendar parsing
(`strptime("%Y%m%d")`) is abstracted into the day index. -/
structure PyDatetime where
  day : Int
  hour : Nat
  minute : Nat
  second : Nat
  micro : Nat
  deriving Repr, DecidableEq

/-- The absolute timestamp of a `PyDatetime`, in microseconds. -/
def PyDatetime.toMicros (t : PyDatetime) : Int :=
  t.day * microsPerDay
    + (t.hour : Int) * microsPerHour
    + (t.minute : Int) * 60 * 1000000
    + (t.second : Int) * 1000000
    + (t.micro : Int)

/-- `dt.replace(hour=0, minute=0, second=0)` — the microsecond field is kept,
exactly as in CPython. -/
def PyDatetime.replaceHMS0 (t : PyDatetime) : PyDatetime :=
  { t with hour := 0, minute := 0, second := 0 }

/-- Midnight of a calendar day, as a timestamp in microseconds. -/
def midnightMicros (day : Int) : Int := day * microsPerDay

/-- An article document as stored in the raw-articles collection, under the
projection `{_id, url, article, category, title}` used by the orchestrator.
The store-assigned `_id` is modelled as a string.  `date` is the stored
timestamp in microseconds. -/
structure StoredArticle where
  oid : String
  title : String
  url : String
  category : String
  date : Int
  article : String
  deriving Repr, DecidableEq

/-- `Article` from src/schemas/lsm_schemas.py: one re-hydrated article as
persisted inside a summary (`article_id`, `title`, `url`, `ai_summary`). -/
structure DBArticle where
  article_id : String
  title : String
  url : String
  ai_summary : String
  deriving Repr, DecidableEq

/-- `Summary` from src/schemas/lsm_schemas.py: a category together with its
re-hydrated articles. -/
structure Summary where
  category : String
  articles : List DBArticle
  deriving Repr, DecidableEq

/-- `MongoSummaryDocument` from src/schemas/lsm_schemas.py: the payload handed
to `upsert_summary`.  Its `date` field is the `YYYYMMDD` string, modelled as
the calendar-day index it parses to. -/
structure MongoSummaryDocument where
  date : Int
  summaries : List Summary
  deriving Repr, DecidableEq

/-- A document of the daily-summary collection after upsert: the normalized
UTC-midnight date (as a microsecond timestamp), the summaries, and the
`updated_at` timestamp written on every call. -/
structure SummaryDoc where
  date : Int
  summaries : List Summary
  updated_at : Int
  deriving Repr, DecidableEq

/-- `MongoUpdateResult` from src/schemas/lsm_schemas.py. -/
structure MongoUpdateResult where
  did_upsert : Bool
  matched_count : Nat
  modified_count : Nat
  upserted_id : Option String
  deriving Repr, DecidableEq

namespace Lsm

/-- `LSM_SKIP_CATEGORIES` from src/utils/lsm.py. -/
def LSM_SKIP_CATEGORIES : List String :=
  [ "Vaļasprieki"
  , "Virtuve"
  , "Laika ziņas"
  , "Ceļošana"
  , "Cilvēkstāsti"
  , "Ikdienai"
  , "Ziņas vieglajā valodā"
  , "Podkāsti"
  , "Vēsture"
  , "Sarunas"
  , "Skatpunts" ]

/-- The Mongo query of `get_articles_by_date` applied to one document:
`start_of_day <= date < start_of_day + 1 day 3 h` and
`category ∉ LSM_SKIP_CATEGORIES`. -/
def articleQueryMatches (startMicros : Int) (a : StoredArticle) : Bool :=
  decide (startMicros ≤ a.date)
    && decide (a.date < startMicros + microsPerDay + 3 * microsPerHour)
    && !(LSM_SKIP_CATEGORIES.contains a.category)

/-- `get_articles_by_date` from src/utils/lsm.py: computes
`start_of_day = dt.replace(hour=0, minute=0, second=0)` and
`end_of_day = start_of_day + timedelta(days=1, hours=3)`, then returns the
stored documents matching the date window and not of a skipped category. -/
def get_articles_by_date (col : List StoredArticle) (dt : PyDatetime) :
    List StoredArticle :=
  let startOfDay := dt.replaceHMS0
  col.filter (articleQueryMatches startOfDay.toMicros)

/-- Mongo `update_one(query, {"$set": doc}, upsert=True)` where `query`
matches on an exact date and `doc` sets every field of the document: the
first document whose `date` equals `qdate` is replaced wholesale; if none
matches, the new document is appended. -/
def updateOneUpsertByDate (col : List SummaryDoc) (qdate : Int)
    (newdoc : SummaryDoc) : List SummaryDoc × MongoUpdateResult :=
  match col with
  | [] => ([newdoc], ⟨true, 0, 0, some "new-id"⟩)
  | d :: rest =>
    if d.date = qdate then
      (newdoc :: rest, ⟨false, 1, 1, none⟩)
    else
      (d :: (updateOneUpsertByDate rest qdate newdoc).1,
        (updateOneUpsertByDate rest qdate newdoc).2)

/-- `upsert_summary` from src/utils/lsm.py: parses `data.date` (`YYYYMMDD`)
to a date, normalizes it to UTC midnight, stamps `updated_at` with the
current time `now`, and upserts by exact-date match with full-document
`$set` semantics.  Returns the new collection and the update result. -/
def upsert_summary (now : Int) (col : List SummaryDoc)
    (data : MongoSummaryDocument) : List SummaryDoc × MongoUpdateResult :=
  let summaryDatetimeUtc := midnightMicros data.date
  let documentToUpsert : SummaryDoc :=
    { date := summaryDatetimeUtc
    , summaries := data.summaries
    , updated_at := now }
  updateOneUpsertByDate col summaryDatetimeUtc documentToUpsert

/-- `get_daily_summary` from src/utils/lsm.py: exact-date point lookup
(`find_one` returns the first matching document, or none). -/
def get_daily_summary_util (col : List SummaryDoc) (day : Int) :
    Option SummaryDoc :=
  col.find? (fun d => d.date = midnightMicros day)

end Lsm

namespace Adk

/-- The outcome of one `httpx` call after `raise_for_status()`:
a successful response with a JSON body, an `httpx.HTTPStatusError`
carrying the status code and response text, or an `httpx.RequestError`
(network failure) carrying a message. -/
inductive HttpResult where
  | ok (body : String)
  | httpError (status : Nat) (text : String)
  | networkError (msg : String)
  deriving Repr, DecidableEq

/-- The result of `get_or_create_adk_session`: either the session body it
returns, or the `HTTPException` it raises (status code and detail). -/
inductive SessionOutcome where
  | success (body : String)
  | httpException (status : Nat) (detail : String)
  deriving Repr, DecidableEq

/-- Instrumented result of a session-bootstrap call: the outcome, the number
of create (POST) calls issued, and the total time slept. -/
structure SessionTrace where
  outcome : SessionOutcome
  createAttempts : Nat
  totalSleep : Nat
  deriving Repr, DecidableEq

/-- `ADKService.get_or_create_adk_session` from src/services/adk_service.py,
as a function of the scripted outcomes of the probe (GET) and create (POST)
calls.  The source issues one GET; on 200 it returns the existing session,
on 404 it issues exactly one POST, and every failure raises immediately —
there is no loop, no attempt counter and no sleep anywhere in the function,
which the trace fields record. -/
def get_or_create_adk_session (probe create : HttpResult) : SessionTrace :=
  match probe with
  | .ok body => ⟨.success body, 0, 0⟩
  | .httpError status text =>
    if status = 404 then
      match create with
      | .ok body => ⟨.success body, 1, 0⟩
      | .httpError s t =>
        ⟨.httpException s ("Failed to create ADK session via api_server: " ++ t), 1, 0⟩
      | .networkError m =>
        ⟨.httpException 503
          ("Could not connect to ADK api_server session service: " ++ m), 1, 0⟩
    else
      ⟨.httpException status
        ("Failed to check ADK session via api_server: " ++ text), 0, 0⟩
  | .networkError m =>
    ⟨.httpException 503
      ("Could not connect to ADK api_server session service: " ++ m), 0, 0⟩

end Adk

namespace Router

/-- The Python truthiness-guarded truncation of src/routers/lsm_router.py:
`if limit: articles = articles[:limit]`.  `limit` is an optional integer
query parameter (default `None`); `None` and `0` are falsy, so no slicing
happens for them; a positive `limit` keeps the first `limit` elements; a
negative `limit` drops the last `|limit|` elements (Python slice law). -/
def applyLimit (limit : Option Int) (articles : List StoredArticle) :
    List StoredArticle :=
  match limit with
  | none => articles
  | some l =>
    if l = 0 then articles
    else if 0 < l then articles.take l.toNat
    else articles.take (articles.length - l.natAbs)

/-- One request part of the payload sent to the agent, built in
src/routers/lsm_router.py as `{"uuid": article["url"], "category":
article["category"], "article": article["article"]}`. -/
structure RequestPart where
  uuid : String
  category : String
  article : String
  deriving Repr, DecidableEq

/-- The request parts for a list of fetched articles: one part per article,
in order, with `uuid` set to the article's url — the source comment reads
"LLMs copy URLs better than UUIDs". -/
def buildParts (articles : List StoredArticle) : List RequestPart :=
  articles.map (fun a => ⟨a.url, a.category, a.article⟩)

/-- The in-memory index built alongside the parts: the Python dict
`index[article["url"]] = article`, modelled as the insertion sequence of
key/value pairs. -/
def buildIndex (articles : List StoredArticle) :
    List (String × StoredArticle) :=
  articles.map (fun a => (a.url, a))

/-- Python dict lookup over an insertion sequence: the LAST binding of a key
wins, and a missing key is `none` (a `KeyError` at the call site). -/
def dictLookup (idx : List (String × StoredArticle)) (k : String) :
    Option StoredArticle :=
  match idx with
  | [] => none
  | (k', v) :: rest =>
    match dictLookup rest k with
    | some v' => some v'
    | none => if k' = k then some v else none

/-- `AgentArticle` from src/schemas/lsm_schemas.py: one article reference in
the parsed agent reply (`uuid` plus `summary` text). -/
structure AgentArticle where
  uuid : String
  summary : String
  deriving Repr, DecidableEq

/-- `AgentSummary` from src/schemas/lsm_schemas.py: one category group of the
parsed agent reply. -/
structure AgentSummary where
  category : String
  articles : List AgentArticle
  deriving Repr, DecidableEq

/-- `AgentResponseSchema` from src/schemas/lsm_schemas.py. -/
structure AgentResponseSchema where
  summaries : List AgentSummary
  deriving Repr, DecidableEq

/-- The inner re-hydration loop of `summarise_agent_articles`
(src/routers/lsm_router.py): for each reference, `data = index[article.uuid]`
— a missing key raises `KeyError(uuid)`, modelled as `.error uuid` — and
otherwise the original `_id`, `title` and `url` are merged with the agent's
summary text. -/
def resolveArticles (idx : List (String × StoredArticle)) :
    List AgentArticle → Except String (List DBArticle)
  | [] => .ok []
  | r :: rs =>
    match dictLookup idx r.uuid with
    | none => .error r.uuid
    | some d =>
      match resolveArticles idx rs with
      | .error u => .error u
      | .ok tail => .ok (⟨d.oid, d.title, d.url, r.summary⟩ :: tail)

/-- The outer re-hydration loop of `summarise_agent_articles`: each category
group of the agent reply becomes one `Summary` record with the category as
returned by the agent (no re-grouping). -/
def resolveSummaries (idx : List (String × StoredArticle)) :
    List AgentSummary → Except String (List Summary)
  | [] => .ok []
  | s :: ss =>
    match resolveArticles idx s.articles with
    | .error u => .error u
    | .ok arts =>
      match resolveSummaries idx ss with
      | .error u => .error u
      | .ok tail => .ok (⟨s.category, arts⟩ :: tail)

/-- The tail of `summarise_agent_articles` after the agent reply has been
parsed: re-hydrate every reference through the index, then persist via
`upsert_summary`.  A `KeyError` during re-hydration propagates (it is caught
only by the generic handler, which converts it to a 500), so on a lookup
miss nothing is persisted and the error carries the unresolved id. -/
def finishSummarise (day : Int) (now : Int)
    (idx : List (String × StoredArticle)) (parsed : AgentResponseSchema)
    (col : List SummaryDoc) :
    Except String (List SummaryDoc × MongoUpdateResult) :=
  match resolveSummaries idx parsed.summaries with
  | .error u => .error u
  | .ok responseSummaries =>
    .ok (Lsm.upsert_summary now col ⟨day, responseSummaries⟩)

/-- The HTTP response of the daily-summary read path: either the document or
an error status with a detail string. -/
inductive DailyGetResult where
  | ok (doc : SummaryDoc)
  | err (status : Nat) (detail : String)
  deriving Repr, DecidableEq

/-- `get_daily_summary` route from src/routers/lsm_router.py: looks the
document up by exact date and then evaluates
`DailySummarySchema(**document)`.  When the lookup returned `None`, that
expression raises `TypeError` — an uncaught exception, surfaced by the
framework as a generic 500, not as a 404. -/
def get_daily_summary_route (col : List SummaryDoc) (day : Int) :
    DailyGetResult :=
  match Lsm.get_daily_summary_util col day with
  | some doc => .ok doc
  | none => .err 500 "Internal Server Error"

/-- The article query of `summarise_agent_articles` in
src/routers/agent_router.py: the same 27-hour window, but with no category
exclusion in the query, and `to_list(length=100)` capping the result at the
first 100 matching documents. -/
def agentRouterFetch (col : List StoredArticle) (dt : PyDatetime) :
    List StoredArticle :=
  let startOfDay := dt.replaceHMS0
  (col.filter (fun a =>
    decide (startOfDay.toMicros ≤ a.date)
      && decide (a.date < startOfDay.toMicros + microsPerDay
                  + 3 * microsPerHour))).take 100

end Router

/-! ## Theorems -/

open Lsm Router Adk

/-- C1 counterexample: with a probe answering 404 and a create call that
always fails (HTTP 500), `get_or_create_adk_session` raises after exactly
ONE create attempt with zero total sleep — not after the claimed maximum of
5 attempts with exponential-backoff sleeps. -/
theorem C1_counterexample :
    Adk.get_or_create_adk_session (.httpError 404 "not found")
        (.httpError 500 "boom")
      = ⟨.httpException 500 "Failed to create ADK session via api_server: boom",
          1, 0⟩
    ∧ (Adk.get_or_create_adk_session (.httpError 404 "not found")
        (.httpError 500 "boom")).createAttempts ≠ 5
    ∧ (Adk.get_or_create_adk_session (.httpError 404 "not found")
        (.httpError 500 "boom")).totalSleep = 0 := by
  refine ⟨rfl, ?_, rfl⟩
  decide

/-- C1 (amended): when the create call fails, `get_or_create_adk_session`
raises immediately — an HTTP error surfaces the upstream status, a network
error surfaces 503 — after exactly one create attempt, with no sleeping and
no retry; and the function never reports success unless the probe or the
create call itself succeeded, so it never silently proceeds without a
session. -/
theorem C1_no_retry_single_create_attempt
    (text t m : String) (s : Nat) (create : HttpResult) :
    Adk.get_or_create_adk_session (.httpError 404 text) (.httpError s t)
      = ⟨.httpException s ("Failed to create ADK session via api_server: " ++ t),
          1, 0⟩
    ∧ Adk.get_or_create_adk_session (.httpError 404 text) (.networkError m)
      = ⟨.httpException 503
            ("Could not connect to ADK api_server session service: " ++ m),
          1, 0⟩
    ∧ (Adk.get_or_create_adk_session (.httpError 404 text) create).totalSleep = 0
    ∧ (∀ body,
        (Adk.get_or_create_adk_session (.httpError 404 text) create).outcome
          = .success body → create = .ok body) := by
  refine ⟨by simp [Adk.get_or_create_adk_session], by simp [Adk.get_or_create_adk_session], ?_, ?_⟩
  · cases create <;> simp [Adk.get_or_create_adk_session]
  · intro body h
    cases create <;> simp_all [Adk.get_or_create_adk_session]

/-- C8: the probe's outcome determines the next step: a 200 returns the
existing session with no create call; a 404 proceeds to exactly one create
call; any other HTTP status raises immediately with that status; a network
error raises immediately with 503 — in both failure cases with zero create
attempts, i.e. without retrying and without treating the session as
absent. -/
theorem C8_probe_outcome_dispatch
    (body text m : String) (s : Nat) (create : HttpResult) (hs : s ≠ 404) :
    Adk.get_or_create_adk_session (.ok body) create = ⟨.success body, 0, 0⟩
    ∧ (Adk.get_or_create_adk_session (.httpError 404 text) create).createAttempts = 1
    ∧ Adk.get_or_create_adk_session (.httpError s text) create
      = ⟨.httpException s ("Failed to check ADK session via api_server: " ++ text),
          0, 0⟩
    ∧ Adk.get_or_create_adk_session (.networkError m) create
      = ⟨.httpException 503
            ("Could not connect to ADK api_server session service: " ++ m),
          0, 0⟩ := by
  refine ⟨rfl, ?_, ?_, rfl⟩
  · cases create <;> simp [Adk.get_or_create_adk_session]
  · simp [Adk.get_or_create_adk_session, hs]

/-- C8 witness: a 500 probe outcome raises immediately with status 500 and
no create attempt. -/
theorem C8_probe_outcome_dispatch_witness :
    Adk.get_or_create_adk_session (.httpError 500 "err") (.ok "s")
      = ⟨.httpException 500 ("Failed to check ADK session via api_server: " ++ "err"),
          0, 0⟩ :=
  (C8_probe_outcome_dispatch "b" "err" "m" 500 (.ok "s") (by decide)).2.2.1

/-- C1 witness: concrete create failure with status 502. -/
theorem C1_no_retry_single_create_attempt_witness :
    Adk.get_or_create_adk_session (.httpError 404 "t") (.httpError 502 "bad")
      = ⟨.httpException 502 ("Failed to create ADK session via api_server: " ++ "bad"),
          1, 0⟩ :=
  (C1_no_retry_single_create_attempt "t" "bad" "m" 502 (.ok "")).1

/-- `replace(hour=0, minute=0, second=0)` lands on midnight exactly when the
input carries no microseconds (always the case for `strptime("%Y%m%d")`
outputs, which is how both routers build the datetime). -/
theorem replaceHMS0_toMicros (dt : PyDatetime) (h : dt.micro = 0) :
    dt.replaceHMS0.toMicros = midnightMicros dt.day := by
  simp [PyDatetime.replaceHMS0, PyDatetime.toMicros, midnightMicros, h]

/-- `timedelta(days=1, hours=3)` is 27 hours. -/
theorem window_is_27_hours : microsPerDay + 3 * microsPerHour = 27 * microsPerHour := by
  norm_num [microsPerDay, microsPerHour]

/-- C4: for a date (a datetime with no sub-second residue, as produced by
`strptime("%Y%m%d")`), `get_articles_by_date` returns exactly the stored
articles whose date lies in `[midnight, midnight + 27h)` and whose category
is not excluded, in store order (a sublist), and the empty list — not an
error — when nothing matches. -/
theorem C4_fetch_window_and_exclusions
    (col : List StoredArticle) (dt : PyDatetime) (hmicro : dt.micro = 0) :
    (∀ a, a ∈ Lsm.get_articles_by_date col dt ↔
        a ∈ col
        ∧ midnightMicros dt.day ≤ a.date
        ∧ a.date < midnightMicros dt.day + 27 * microsPerHour
        ∧ a.category ∉ Lsm.LSM_SKIP_CATEGORIES)
    ∧ (Lsm.get_articles_by_date col dt).Sublist col
    ∧ ((∀ a ∈ col,
          a.category ∈ Lsm.LSM_SKIP_CATEGORIES
          ∨ a.date < midnightMicros dt.day
          ∨ midnightMicros dt.day + 27 * microsPerHour ≤ a.date) →
        Lsm.get_articles_by_date col dt = []) := by
  have hstart : dt.replaceHMS0.toMicros = midnightMicros dt.day :=
    replaceHMS0_toMicros dt hmicro
  have hmem : ∀ a, a ∈ Lsm.get_articles_by_date col dt ↔
      a ∈ col
      ∧ midnightMicros dt.day ≤ a.date
      ∧ a.date < midnightMicros dt.day + 27 * microsPerHour
      ∧ a.category ∉ Lsm.LSM_SKIP_CATEGORIES := by
    intro a
    rw [← window_is_27_hours]
    simp [Lsm.get_articles_by_date, Lsm.articleQueryMatches, List.mem_filter,
      hstart, and_assoc, add_assoc]
  refine ⟨hmem, ?_, ?_⟩
  · exact List.filter_sublist col
  · intro hnone
    rw [List.eq_nil_iff_forall_not_mem]
    intro a hmem'
    rcases (hmem a).1 hmem' with ⟨hcol, h1, h2, h3⟩
    rcases hnone a hcol with h | h | h
    · exact h3 h
    · exact absurd h1 (not_le.mpr h)
    · exact absurd h2 (not_lt.mpr h)

/-- C4 witness: a one-article store with an in-window, non-excluded article;
the characterization admits it, and the emptiness clause fires on an
excluded-category store. -/
theorem C4_fetch_window_and_exclusions_witness :
    (⟨"id1", "T", "U", "Latvijā", 0, "B"⟩ : StoredArticle)
      ∈ Lsm.get_articles_by_date [⟨"id1", "T", "U", "Latvijā", 0, "B"⟩]
          ⟨0, 0, 0, 0, 0⟩ :=
  ((C4_fetch_window_and_exclusions [⟨"id1", "T", "U", "Latvijā", 0, "B"⟩]
      ⟨0, 0, 0, 0, 0⟩ rfl).1 _).2 (by refine ⟨by simp, by decide, by decide, by decide⟩)

/-- The window-only predicate of the agent-router query (no category
clause). -/
def agentWindowB (day : Int) (a : StoredArticle) : Bool :=
  decide (midnightMicros day ≤ a.date)
    && decide (a.date < midnightMicros day + 27 * microsPerHour)

/-- C10: the ADK-agent daily-summary endpoint queries with only the 27-hour
date window — the result is the first 100 window-matching documents, every
returned article lies in the window with no category condition, at most 100
documents are retrieved, and whenever at most 100 documents match the
window, EVERY in-window article is included, regardless of its category
(so excluded categories can reach the agent), while any matches beyond the
first 100 are omitted. -/
theorem C10_agent_fetch_window_only (col : List StoredArticle) (day : Int) :
    Router.agentRouterFetch col ⟨day, 0, 0, 0, 0⟩
      = (col.filter (agentWindowB day)).take 100
    ∧ (∀ a ∈ Router.agentRouterFetch col ⟨day, 0, 0, 0, 0⟩,
        midnightMicros day ≤ a.date
        ∧ a.date < midnightMicros day + 27 * microsPerHour)
    ∧ (Router.agentRouterFetch col ⟨day, 0, 0, 0, 0⟩).length ≤ 100
    ∧ ((col.filter (agentWindowB day)).length ≤ 100 →
        ∀ a ∈ col, midnightMicros day ≤ a.date →
          a.date < midnightMicros day + 27 * microsPerHour →
            a ∈ Router.agentRouterFetch col ⟨day, 0, 0, 0, 0⟩) := by
  have hstart : (⟨day, 0, 0, 0, 0⟩ : PyDatetime).replaceHMS0.toMicros
      = midnightMicros day := replaceHMS0_toMicros _ rfl
  have heq : Router.agentRouterFetch col ⟨day, 0, 0, 0, 0⟩
      = (col.filter (agentWindowB day)).take 100 := by
    unfold Router.agentRouterFetch agentWindowB
    simp only [hstart, add_assoc, window_is_27_hours]
  refine ⟨heq, ?_, ?_, ?_⟩
  · intro a ha
    rw [heq] at ha
    have ha' : a ∈ col.filter (agentWindowB day) :=
      (List.take_sublist _ _).mem ha
    have := (List.mem_filter.1 ha').2
    simp only [agentWindowB, Bool.and_eq_true, decide_eq_true_iff] at this
    exact this
  · rw [heq, List.length_take]
    exact min_le_left _ _
  · intro hle a hcol h1 h2
    rw [heq, List.take_of_length_le hle]
    exact List.mem_filter.2 ⟨hcol, by
      simp [agentWindowB, h1, h2]⟩

/-- C10 witness: a store holding a single excluded-category article
("Vaļasprieki") dated inside the window is returned in full by the agent
router's query. -/
theorem C10_agent_fetch_window_only_witness :
    (⟨"id9", "T", "U", "Vaļasprieki", 0, "B"⟩ : StoredArticle)
      ∈ Router.agentRouterFetch [⟨"id9", "T", "U", "Vaļasprieki", 0, "B"⟩]
          ⟨0, 0, 0, 0, 0⟩ :=
  (C10_agent_fetch_window_only [⟨"id9", "T", "U", "Vaļasprieki", 0, "B"⟩] 0).2.2.2
    (by decide) _ (by simp) (by decide) (by decide)

/-- Upsert-by-date with a new document carrying the queried date: whenever
the collection holds at most one document for that date, after the call it
holds exactly that new document for the date (full replacement of the first
match, or an append when absent). -/
theorem updateOne_filter_eq (col : List SummaryDoc) (qdate : Int)
    (newdoc : SummaryDoc) (hdoc : newdoc.date = qdate)
    (h : (col.filter (fun d => decide (d.date = qdate))).length ≤ 1) :
    (Lsm.updateOneUpsertByDate col qdate newdoc).1.filter
        (fun d => decide (d.date = qdate))
      = [newdoc] := by
  induction col with
  | nil => simp [Lsm.updateOneUpsertByDate, hdoc]
  | cons d rest ih =>
    by_cases hd : d.date = qdate
    · have hrest : rest.filter (fun d => decide (d.date = qdate)) = [] := by
        rw [List.filter_cons_of_pos (by simpa using hd)] at h
        simp only [List.length_cons] at h
        exact List.length_eq_zero.1 (by omega)
      simp [Lsm.updateOneUpsertByDate, hd, hdoc, hrest]
    · rw [List.filter_cons_of_neg (by simpa using hd)] at h
      simp [Lsm.updateOneUpsertByDate, hd, ih h]

/-- C3: the daily-summary upsert preserves the one-document-per-date
invariant: starting from a collection with at most one document for the
normalized UTC-midnight date, the first call leaves exactly one document
`⟨date, S₁, t₁⟩` for that date, and the second call with different content
leaves exactly one document `⟨date, S₂, t₂⟩` — the second call's content in
full (overwrite, not merge) — with `updated_at` stamped by each call, hence
strictly increasing when the clock advances. -/
theorem C3_upsert_one_doc_per_date
    (col : List SummaryDoc) (day t1 t2 : Int) (S1 S2 : List Summary)
    (hinv : (col.filter (fun d => decide (d.date = midnightMicros day))).length ≤ 1)
    (ht : t1 < t2) :
    (Lsm.upsert_summary t1 col ⟨day, S1⟩).1.filter
        (fun d => decide (d.date = midnightMicros day))
      = [⟨midnightMicros day, S1, t1⟩]
    ∧ (Lsm.upsert_summary t2 (Lsm.upsert_summary t1 col ⟨day, S1⟩).1
          ⟨day, S2⟩).1.filter
        (fun d => decide (d.date = midnightMicros day))
      = [⟨midnightMicros day, S2, t2⟩]
    ∧ t1 < t2 := by
  have h1 : (Lsm.upsert_summary t1 col ⟨day, S1⟩).1.filter
      (fun d => decide (d.date = midnightMicros day))
      = [⟨midnightMicros day, S1, t1⟩] :=
    updateOne_filter_eq col (midnightMicros day) _ rfl hinv
  refine ⟨h1, ?_, ht⟩
  exact updateOne_filter_eq _ (midnightMicros day) _ rfl (by rw [h1]; simp)

/-- C3 witness: an empty collection, two upserts for day 0 at times 1 and 2. -/
theorem C3_upsert_one_doc_per_date_witness :
    (Lsm.upsert_summary 2 (Lsm.upsert_summary 1 [] ⟨0, []⟩).1 ⟨0, [⟨"c", []⟩]⟩).1.filter
        (fun d => decide (d.date = midnightMicros 0))
      = [⟨midnightMicros 0, [⟨"c", []⟩], 2⟩] :=
  (C3_upsert_one_doc_per_date [] 0 1 2 [] [⟨"c", []⟩] (by simp) (by decide)).2.1

/-- C9 counterexample: the guard `if limit:` treats a supplied limit of 0 as
falsy, so `applyLimit (some 0)` leaves a two-element fetch untouched instead
of truncating it to zero elements; and a supplied limit of 5 over a
two-element fetch yields 2 elements, not exactly 5. -/
theorem C9_counterexample :
    Router.applyLimit (some 0)
        [⟨"i1", "T1", "U1", "C1", 0, "A1"⟩, ⟨"i2", "T2", "U2", "C2", 0, "A2"⟩]
      = [⟨"i1", "T1", "U1", "C1", 0, "A1"⟩, ⟨"i2", "T2", "U2", "C2", 0, "A2"⟩]
    ∧ ([⟨"i1", "T1", "U1", "C1", 0, "A1"⟩, ⟨"i2", "T2", "U2", "C2", 0, "A2"⟩]
        : List StoredArticle) ≠ []
    ∧ (Router.applyLimit (some 5)
        [⟨"i1", "T1", "U1", "C1", 0, "A1"⟩, ⟨"i2", "T2", "U2", "C2", 0, "A2"⟩]).length
      = 2
    ∧ (2 : Nat) ≠ 5 := by
  refine ⟨rfl, by decide, rfl, by decide⟩

/-- C9 (amended): a supplied POSITIVE limit truncates the fetched sequence
to its first `min limit length` elements — at most `limit`, a prefix, so
store order is kept with no re-sorting; when no limit is supplied, or the
supplied limit is 0 (falsy in Python), the full fetched sequence is used. -/
theorem C9_applyLimit_amended (l : Int) (xs : List StoredArticle)
    (hl : 0 < l) :
    Router.applyLimit (some l) xs = xs.take l.toNat
    ∧ (Router.applyLimit (some l) xs).length = min l.toNat xs.length
    ∧ (Router.applyLimit (some l) xs) <+: xs
    ∧ Router.applyLimit none xs = xs
    ∧ Router.applyLimit (some 0) xs = xs := by
  have heq : Router.applyLimit (some l) xs = xs.take l.toNat := by
    simp only [Router.applyLimit]
    rw [if_neg (by omega : ¬ l = 0), if_pos hl]
  refine ⟨heq, ?_, ?_, rfl, rfl⟩
  · rw [heq, List.length_take]
  · rw [heq]
    exact List.take_prefix _ _

/-- C9 witness: limit 1 over a two-element fetch keeps exactly the first
element. -/
theorem C9_applyLimit_amended_witness :
    Router.applyLimit (some 1)
        [⟨"i1", "T1", "U1", "C1", 0, "A1"⟩, ⟨"i2", "T2", "U2", "C2", 0, "A2"⟩]
      = List.take (Int.toNat 1)
          [⟨"i1", "T1", "U1", "C1", 0, "A1"⟩, ⟨"i2", "T2", "U2", "C2", 0, "A2"⟩] :=
  (C9_applyLimit_amended 1
    [⟨"i1", "T1", "U1", "C1", 0, "A1"⟩, ⟨"i2", "T2", "U2", "C2", 0, "A2"⟩]
    (by decide)).1

/-- A key absent from every article's url is absent from the built index. -/
theorem dictLookup_eq_none (articles : List StoredArticle) (k : String)
    (h : k ∉ articles.map StoredArticle.url) :
    Router.dictLookup (Router.buildIndex articles) k = none := by
  induction articles with
  | nil => rfl
  | cons b rest ih =>
    simp only [List.map_cons, List.mem_cons, not_or] at h
    obtain ⟨h1, h2⟩ := h
    show Router.dictLookup ((b.url, b) :: Router.buildIndex rest) k = none
    simp only [Router.dictLookup, ih h2]
    exact if_neg (fun hh => h1 hh.symm)

/-- Under pairwise-distinct urls, the index maps each article's url back to
exactly that article (Python dict semantics, last binding wins). -/
theorem dictLookup_buildIndex_nodup (articles : List StoredArticle)
    (hnodup : (articles.map StoredArticle.url).Nodup)
    (a : StoredArticle) (ha : a ∈ articles) :
    Router.dictLookup (Router.buildIndex articles) a.url = some a := by
  induction articles with
  | nil => cases ha
  | cons b rest ih =>
    simp only [List.map_cons, List.nodup_cons] at hnodup
    obtain ⟨hb, hrest⟩ := hnodup
    rcases List.mem_cons.1 ha with rfl | hmem
    · have hnone := dictLookup_eq_none rest a.url hb
      show Router.dictLookup ((a.url, a) :: Router.buildIndex rest) a.url = some a
      simp [Router.dictLookup, hnone]
    · have hres := ih hrest hmem
      show Router.dictLookup ((b.url, b) :: Router.buildIndex rest) a.url = some a
      simp [Router.dictLookup, hres]

/-- C2 counterexample: the request part built for a concrete article carries
the article's url as its `uuid` field — the correlation id is the url,
not a freshly generated opaque token, so the url does appear in the payload
sent to the agent. -/
theorem C2_counterexample :
    (Router.buildParts
        [⟨"oid1", "Title", "https://www.lsm.lv/x", "Latvijā", 0, "Body"⟩]).map
        Router.RequestPart.uuid
      = ["https://www.lsm.lv/x"]
    ∧ "https://www.lsm.lv/x"
      = (⟨"oid1", "Title", "https://www.lsm.lv/x", "Latvijā", 0, "Body"⟩
          : StoredArticle).url :=
  ⟨rfl, rfl⟩

/-- C2 (amended): each request part sent to the agent contains only a
correlation id, the category and the article text, one part per fetched
article in order — but the correlation id is the article's URL (so the url
does appear in the payload, while the title and the store id are withheld);
and when the fetched urls are pairwise distinct, every correlation id sent
maps back, through the in-memory index, to exactly the one fetched article
it came from. -/
theorem C2_request_parts_amended (articles : List StoredArticle)
    (hnodup : (articles.map StoredArticle.url).Nodup) :
    (Router.buildParts articles).length = articles.length
    ∧ (∀ p ∈ Router.buildParts articles,
        ∃ a ∈ articles, p = ⟨a.url, a.category, a.article⟩)
    ∧ (∀ a ∈ articles,
        (⟨a.url, a.category, a.article⟩ : Router.RequestPart)
          ∈ Router.buildParts articles
        ∧ Router.dictLookup (Router.buildIndex articles) a.url = some a) := by
  refine ⟨by simp [Router.buildParts], ?_, ?_⟩
  · intro p hp
    rcases List.mem_map.1 hp with ⟨a, ha, rfl⟩
    exact ⟨a, ha, rfl⟩
  · intro a ha
    exact ⟨List.mem_map.2 ⟨a, ha, rfl⟩,
      dictLookup_buildIndex_nodup articles hnodup a ha⟩

/-- C2 witness: a two-article fetch with distinct urls. -/
theorem C2_request_parts_amended_witness :
    Router.dictLookup
        (Router.buildIndex
          [⟨"i1", "T1", "U1", "C1", 0, "A1"⟩, ⟨"i2", "T2", "U2", "C2", 0, "A2"⟩])
        (⟨"i1", "T1", "U1", "C1", 0, "A1"⟩ : StoredArticle).url
      = some ⟨"i1", "T1", "U1", "C1", 0, "A1"⟩ :=
  ((C2_request_parts_amended
      [⟨"i1", "T1", "U1", "C1", 0, "A1"⟩, ⟨"i2", "T2", "U2", "C2", 0, "A2"⟩]
      (by decide)).2.2 _ (by simp)).2

/-- The error value of a failed inner re-hydration loop is always an
unresolved id: a uuid with no binding in the index. -/
theorem resolveArticles_error_lookup_none
    (idx : List (String × StoredArticle)) (rs : List Router.AgentArticle)
    (u : String) (h : Router.resolveArticles idx rs = .error u) :
    Router.dictLookup idx u = none := by
  induction rs with
  | nil => simp [Router.resolveArticles] at h
  | cons r rest ih =>
    rw [Router.resolveArticles] at h
    cases hl : Router.dictLookup idx r.uuid with
    | none =>
      rw [hl] at h
      cases h
      exact hl
    | some d =>
      rw [hl] at h
      cases hrec : Router.resolveArticles idx rest with
      | error u' =>
        rw [hrec] at h
        cases h
        exact ih hrec
      | ok tail => rw [hrec] at h; cases h

/-- A reference with an unresolved uuid makes the inner re-hydration loop
fail (the `KeyError` of `index[article.uuid]`). -/
theorem resolveArticles_error_of_miss
    (idx : List (String × StoredArticle)) (rs : List Router.AgentArticle)
    (r : Router.AgentArticle) (hr : r ∈ rs)
    (hmiss : Router.dictLookup idx r.uuid = none) :
    ∃ u, Router.resolveArticles idx rs = .error u := by
  induction rs with
  | nil => cases hr
  | cons r' rest ih =>
    rw [Router.resolveArticles]
    cases hl : Router.dictLookup idx r'.uuid with
    | none => exact ⟨r'.uuid, rfl⟩
    | some d =>
      have hr'' : r ∈ rest := by
        rcases List.mem_cons.1 hr with rfl | hm
        · rw [hl] at hmiss; cases hmiss
        · exact hm
      rcases ih hr'' with ⟨u, hu⟩
      rw [hu]
      exact ⟨u, rfl⟩

/-- The error value of a failed outer re-hydration loop is always an
unresolved id. -/
theorem resolveSummaries_error_lookup_none
    (idx : List (String × StoredArticle)) (ss : List Router.AgentSummary)
    (u : String) (h : Router.resolveSummaries idx ss = .error u) :
    Router.dictLookup idx u = none := by
  induction ss with
  | nil => simp [Router.resolveSummaries] at h
  | cons s rest ih =>
    rw [Router.resolveSummaries] at h
    cases ha : Router.resolveArticles idx s.articles with
    | error u' =>
      rw [ha] at h
      cases h
      exact resolveArticles_error_lookup_none idx s.articles u ha
    | ok arts =>
      rw [ha] at h
      cases hrec : Router.resolveSummaries idx rest with
      | error u' =>
        rw [hrec] at h
        cases h
        exact ih hrec
      | ok tail => rw [hrec] at h; cases h

/-- An unresolved reference anywhere in the parsed reply makes the outer
re-hydration loop fail. -/
theorem resolveSummaries_error_of_miss
    (idx : List (String × StoredArticle)) (ss : List Router.AgentSummary)
    (s : Router.AgentSummary) (hs : s ∈ ss) (r : Router.AgentArticle)
    (hr : r ∈ s.articles)
    (hmiss : Router.dictLookup idx r.uuid = none) :
    ∃ u, Router.resolveSummaries idx ss = .error u := by
  induction ss with
  | nil => cases hs
  | cons s' rest ih =>
    rw [Router.resolveSummaries]
    cases ha : Router.resolveArticles idx s'.articles with
    | error u' => exact ⟨u', rfl⟩
    | ok arts =>
      have hs'' : s ∈ rest := by
        rcases List.mem_cons.1 hs with rfl | hm
        · rcases resolveArticles_error_of_miss idx s.articles r hr hmiss with ⟨u, hu⟩
          rw [hu] at ha; cases ha
        · exact hm
      rcases ih hs'' with ⟨u, hu⟩
      rw [hu]
      exact ⟨u, rfl⟩

/-- C5: if the parsed agent reply references a uuid that is not a key of the
index, `summarise_agent_articles` fails during re-hydration with an error
that carries an unresolved id (the `KeyError`, converted by the boundary
handler to a 500), and returns no updated collection — no partial summary
document is persisted for the date. -/
theorem C5_lookup_miss_fails_loud_no_persist
    (day now : Int) (idx : List (String × StoredArticle))
    (parsed : Router.AgentResponseSchema) (col : List SummaryDoc)
    (hmiss : ∃ s ∈ parsed.summaries, ∃ r ∈ s.articles,
        Router.dictLookup idx r.uuid = none) :
    ∃ u, Router.finishSummarise day now idx parsed col = .error u
      ∧ Router.dictLookup idx u = none := by
  rcases hmiss with ⟨s, hs, r, hr, hm⟩
  rcases resolveSummaries_error_of_miss idx parsed.summaries s hs r hr hm
    with ⟨u, hu⟩
  refine ⟨u, ?_, resolveSummaries_error_lookup_none idx parsed.summaries u hu⟩
  rw [Router.finishSummarise, hu]

/-- C5 witness: an empty index and a reply referencing uuid "m". -/
theorem C5_lookup_miss_fails_loud_no_persist_witness :
    ∃ u, Router.finishSummarise 0 0 [] ⟨[⟨"cat", [⟨"m", "S"⟩]⟩]⟩ [] = .error u
      ∧ Router.dictLookup [] u = none :=
  C5_lookup_miss_fails_loud_no_persist 0 0 [] ⟨[⟨"cat", [⟨"m", "S"⟩]⟩]⟩ []
    ⟨⟨"cat", [⟨"m", "S"⟩]⟩, by simp, ⟨"m", "S"⟩, by simp, rfl⟩

/-- A successful inner re-hydration carries one merged entry per reference:
the original `_id`, `title` and `url` of the indexed article, with the
agent's summary text. -/
theorem resolveArticles_ok_mem
    (idx : List (String × StoredArticle)) (rs : List Router.AgentArticle)
    (arts : List DBArticle) (h : Router.resolveArticles idx rs = .ok arts)
    (r : Router.AgentArticle) (hr : r ∈ rs) :
    ∃ d, Router.dictLookup idx r.uuid = some d
      ∧ (⟨d.oid, d.title, d.url, r.summary⟩ : DBArticle) ∈ arts := by
  induction rs generalizing arts with
  | nil => cases hr
  | cons r' rest ih =>
    rw [Router.resolveArticles] at h
    cases hl : Router.dictLookup idx r'.uuid with
    | none => rw [hl] at h; cases h
    | some d' =>
      rw [hl] at h
      cases hrec : Router.resolveArticles idx rest with
      | error u => rw [hrec] at h; cases h
      | ok tail =>
        rw [hrec] at h
        cases h
        rcases List.mem_cons.1 hr with rfl | hm
        · exact ⟨d', hl, List.mem_cons_self _ _⟩
        · rcases ih tail hrec hm with ⟨d, hd, hdm⟩
          exact ⟨d, hd, List.mem_cons_of_mem _ hdm⟩

/-- A successful outer re-hydration carries one `Summary` per category group
of the reply, under the agent's category. -/
theorem resolveSummaries_ok_mem
    (idx : List (String × StoredArticle)) (ss : List Router.AgentSummary)
    (res : List Summary) (h : Router.resolveSummaries idx ss = .ok res)
    (s : Router.AgentSummary) (hs : s ∈ ss) :
    ∃ arts, Router.resolveArticles idx s.articles = .ok arts
      ∧ (⟨s.category, arts⟩ : Summary) ∈ res := by
  induction ss generalizing res with
  | nil => cases hs
  | cons s' rest ih =>
    rw [Router.resolveSummaries] at h
    cases ha : Router.resolveArticles idx s'.articles with
    | error u => rw [ha] at h; cases h
    | ok arts' =>
      rw [ha] at h
      cases hrec : Router.resolveSummaries idx rest with
      | error u => rw [hrec] at h; cases h
      | ok tail =>
        rw [hrec] at h
        cases h
        rcases List.mem_cons.1 hs with rfl | hm
        · exact ⟨arts', ha, List.mem_cons_self _ _⟩
        · rcases ih tail hrec hm with ⟨arts, harts, hmm⟩
          exact ⟨arts, harts, List.mem_cons_of_mem _ hmm⟩

/-- C6: round-trip — when an Article is part of the request (urls pairwise
distinct) and the agent's reply echoes back its correlation id with summary
text S, the assembled `Summary.articles` entry carries the original title,
url and store id of that Article merged with `ai_summary` S, inside the
category group returned by the agent (no re-grouping), and exactly this
assembled list is what the upsert persists. -/
theorem C6_round_trip
    (articles : List StoredArticle) (a : StoredArticle)
    (parsed : Router.AgentResponseSchema) (asum : Router.AgentSummary)
    (ref : Router.AgentArticle) (res : List Summary)
    (day now : Int) (col : List SummaryDoc)
    (hnodup : (articles.map StoredArticle.url).Nodup)
    (ha : a ∈ articles)
    (hasum : asum ∈ parsed.summaries)
    (href : ref ∈ asum.articles)
    (huuid : ref.uuid = a.url)
    (hok : Router.resolveSummaries (Router.buildIndex articles)
        parsed.summaries = .ok res) :
    (∃ s ∈ res, s.category = asum.category
      ∧ (⟨a.oid, a.title, a.url, ref.summary⟩ : DBArticle) ∈ s.articles)
    ∧ Router.finishSummarise day now (Router.buildIndex articles) parsed col
      = .ok (Lsm.upsert_summary now col ⟨day, res⟩) := by
  have hlook : Router.dictLookup (Router.buildIndex articles) ref.uuid
      = some a := by
    rw [huuid]
    exact dictLookup_buildIndex_nodup articles hnodup a ha
  rcases resolveSummaries_ok_mem _ _ _ hok asum hasum with ⟨arts, harts, hmem⟩
  rcases resolveArticles_ok_mem _ _ _ harts ref href with ⟨d, hd, hdm⟩
  rw [hlook] at hd
  cases hd
  refine ⟨⟨⟨asum.category, arts⟩, hmem, rfl, hdm⟩, ?_⟩
  rw [Router.finishSummarise, hok]

/-- C6 witness: a single article `{id: "A1", title: "T", url: "U"}` and a
stub reply echoing uuid "U" with summary "S". -/
theorem C6_round_trip_witness :
    (∃ s ∈ [(⟨"Latvijā", [⟨"A1", "T", "U", "S"⟩]⟩ : Summary)],
        s.category = (⟨"Latvijā", [⟨"U", "S"⟩]⟩ : Router.AgentSummary).category
        ∧ (⟨(⟨"A1", "T", "U", "Latvijā", 0, "B"⟩ : StoredArticle).oid,
            (⟨"A1", "T", "U", "Latvijā", 0, "B"⟩ : StoredArticle).title,
            (⟨"A1", "T", "U", "Latvijā", 0, "B"⟩ : StoredArticle).url,
            (⟨"U", "S"⟩ : Router.AgentArticle).summary⟩ : DBArticle)
          ∈ s.articles)
    ∧ Router.finishSummarise 0 7
        (Router.buildIndex [⟨"A1", "T", "U", "Latvijā", 0, "B"⟩])
        ⟨[⟨"Latvijā", [⟨"U", "S"⟩]⟩]⟩ []
      = .ok (Lsm.upsert_summary 7 [] ⟨0, [⟨"Latvijā", [⟨"A1", "T", "U", "S"⟩]⟩]⟩) :=
  C6_round_trip [⟨"A1", "T", "U", "Latvijā", 0, "B"⟩]
    ⟨"A1", "T", "U", "Latvijā", 0, "B"⟩
    ⟨[⟨"Latvijā", [⟨"U", "S"⟩]⟩]⟩ ⟨"Latvijā", [⟨"U", "S"⟩]⟩ ⟨"U", "S"⟩
    [⟨"Latvijā", [⟨"A1", "T", "U", "S"⟩]⟩] 0 7 []
    (by decide) (by simp) (by simp) (by simp) (by decide) (by rfl)

/-- C7: for a date with no persisted summary document, the point lookup
correctly returns none — but the route then evaluates
`DailySummarySchema(**document)` on `None`, which raises `TypeError`, an
uncaught exception the framework surfaces as a generic 500.  The distinct
404 the spec mandates is never produced: the code diverges from the claim
on every absent date. -/
theorem C7_missing_summary_yields_500
    (col : List SummaryDoc) (day : Int)
    (habsent : Lsm.get_daily_summary_util col day = none) :
    Router.get_daily_summary_route col day = .err 500 "Internal Server Error"
    ∧ (∀ d, Router.get_daily_summary_route col day ≠ .ok d)
    ∧ (∀ detail, Router.get_daily_summary_route col day ≠ .err 404 detail) := by
  have h : Router.get_daily_summary_route col day
      = .err 500 "Internal Server Error" := by
    rw [Router.get_daily_summary_route, habsent]
  refine ⟨h, ?_, ?_⟩
  · intro d hd
    rw [h] at hd
    cases hd
  · intro detail hd
    rw [h] at hd
    cases hd

/-- C7 witness: the empty summary collection and day 0. -/
theorem C7_missing_summary_yields_500_witness :
    Router.get_daily_summary_route [] 0 = .err 500 "Internal Server Error" :=
  (C7_missing_summary_yields_500 [] 0 rfl).1

end Grabeklis
